import Mathlib

/-!
Shallow embedding of the max_to_tg_reposter bridge core:
the watermark store (src/app/state_store.py), the subscription and catalog
stores (src/app/subscriptions.py), and the routing fan-out engine
(src/main.py handle_message / send_attachments / run wiring).

Python dicts are modelled as insertion-ordered association lists, JSON
documents as a dynamic value type, and the external collaborators (source
client, destination sender, text formatter) as an oracle record, since the
spec scopes them out of the core. Exceptions raised by the Python code are
modelled with Except; exceptions that the code catches internally are
folded into the Option/Bool-valued oracle results.
-/

set_option autoImplicit false

namespace Bridge

/-- A JSON-decoded Python value, as produced by json.loads (this repository
never decodes fractional numbers on the claim-relevant paths, so numbers
are modelled as integers). -/
inductive Json where
  | null
  | bool (b : Bool)
  | num (n : Int)
  | str (s : String)
  | arr (elems : List Json)
  | obj (fields : List (String × Json))

/-- Python int(v) on a JSON-decoded value: identity on ints, digit parsing
on strings, True/False give 1/0, everything else raises (modelled none). -/
def pythonInt : Json → Option Int
  | .num n => some n
  | .str s => s.toInt?
  | .bool b => some (if b then 1 else 0)
  | _ => none

/-- Python equality between an int and a JSON-decoded value
(note True == 1 and False == 0 in Python). -/
def pyIntEqJson (c : Int) : Json → Bool
  | .num n => n == c
  | .bool b => (if b then (1 : Int) else 0) == c
  | _ => false

/-- Python dict lookup d.get(k) over an insertion-ordered association list. -/
def dictLookup {K V : Type} [DecidableEq K] : List (K × V) → K → Option V
  | [], _ => none
  | (k, v) :: rest, key => if k = key then some v else dictLookup rest key

/-- Python dict assignment d[k] = v: replaces the value in place when the
key is present, appends the pair otherwise (insertion order preserved). -/
def dictSet {K V : Type} [DecidableEq K] : List (K × V) → K → V → List (K × V)
  | [], key, v => [(key, v)]
  | (k, w) :: rest, key, v =>
      if k = key then (key, v) :: rest else (k, w) :: dictSet rest key v

/-- Outcome of reading a backing file in a store _load: the file is absent,
reading or JSON-parsing it raised (caught by every _load), or it parsed. -/
inductive FileRead where
  | noFile
  | unreadable
  | parsed (doc : Json)

/-- Python sorted(set(xs)) for a list of ints: the strictly increasing
enumeration of the distinct elements. -/
def pySortedSet (l : List Int) : List Int :=
  List.insertionSort (· ≤ ·) l.dedup

/-! ## Watermark store (src/app/state_store.py, class StateStore) -/

/-- The in-memory _state dict: JSON string keys to int watermark values. -/
abbrev StateMap := List (String × Int)

/-- The dict comprehension in StateStore._load, line 23:
raw.items() requires a JSON object, int(v) must succeed on every value;
any failure raises inside the try and the whole load falls back to empty. -/
def stateNormalize : Json → Option StateMap
  | .obj kvs => kvs.mapM (fun kv => (pythonInt kv.2).map (fun n => (kv.1, n)))
  | _ => none

/-- StateStore._load, lines 17-25: a missing file or a raised read/parse
error leaves the empty dict; a parsed document is normalized, any
normalization failure is caught and leaves the empty dict. -/
def stateLoad : FileRead → StateMap
  | .noFile => []
  | .unreadable => []
  | .parsed j => (stateNormalize j).getD []

/-- StateStore.get_last, lines 30-31. -/
def get_last (s : StateMap) (chat : Int) : Int :=
  (dictLookup s (toString chat)).getD 0

/-- StateStore.set_last, lines 33-35: unconditional overwrite. -/
def set_last (s : StateMap) (chat msgId : Int) : StateMap :=
  dictSet s (toString chat) msgId

/-! ## Subscription store (src/app/subscriptions.py, class SubscriptionsStore)

The typed model below describes the in-memory users dict on well-shaped
states (the states reachable through the store operations from the empty
store the constructor produces). User ids appear as dict keys str(user_id);
since the operations only ever key by str of an int, keys are modelled as
the ints themselves. -/

/-- One user entry of the users dict. username/name distinguish an absent
key (none) from a key present with a possibly-null value (some v): the
profile a bare subscribe creates has no username/name keys at all, while
ensure_user always writes both keys. -/
structure Profile where
  chats : List Int
  username : Option (Option String)
  name : Option (Option String)
deriving DecidableEq

/-- The users dict of SubscriptionsStore._data. -/
abbrev Users := List (Int × Profile)

/-- Python truthiness of an Optional[str]: None and the empty string are
falsy. -/
def pyTruthy : Option String → Bool
  | none => false
  | some s => s != ""

/-- SubscriptionsStore.ensure_user, lines 28-38: first call creates the
profile with an empty chat list and both keys written (possibly null);
later calls refresh username/name only when the supplied value is truthy. -/
def ensure_user (s : Users) (uid : Int) (username nm : Option String) : Users :=
  match dictLookup s uid with
  | none => dictSet s uid ⟨[], some username, some nm⟩
  | some p =>
      dictSet s uid
        { p with
          username := if pyTruthy username then some username else p.username
          name := if pyTruthy nm then some nm else p.name }

/-- SubscriptionsStore.subscribe, lines 40-47: setdefault creates a profile
holding only a chats key, then the chat set is extended and re-stored as
sorted(set(...)). -/
def subscribe (s : Users) (uid chat : Int) : Users :=
  let cur := (dictLookup s uid).getD ⟨[], none, none⟩
  dictSet s uid { cur with chats := pySortedSet (chat :: cur.chats) }

/-- SubscriptionsStore.unsubscribe, lines 49-58: no-op when the user is
unknown or the chat is not in the set; otherwise the set minus the chat is
re-stored as sorted(set(...)). -/
def unsubscribe (s : Users) (uid chat : Int) : Users :=
  match dictLookup s uid with
  | none => s
  | some p =>
      if chat ∈ p.chats then
        dictSet s uid { p with chats := pySortedSet (p.chats.filter (· ≠ chat)) }
      else s

/-- SubscriptionsStore.get_user_chats, lines 60-63. -/
def get_user_chats (s : Users) (uid : Int) : List Int :=
  ((dictLookup s uid).getD ⟨[], none, none⟩).chats

/-- SubscriptionsStore.get_subscribers_for_chat, lines 65-72: every user
whose chat list contains the chat, in dict (insertion) order. -/
def get_subscribers_for_chat (s : Users) (chat : Int) : List Int :=
  (s.filter (fun up => chat ∈ up.2.chats)).map (·.1)

/-- SubscriptionsStore.list_users, lines 74-76: the stored mapping with
int keys. -/
def list_users (s : Users) : List (Int × Profile) := s

/-- Modelled from the spec: SubscriptionsStore.remove_group_from_all is
called from main.py admin_del_chat but is missing from the repository
source. Spec 4.3: cascades catalog-entry deletion by stripping chat_id
from every user's subscription set. -/
def remove_group_from_all (s : Users) (chat : Int) : Users :=
  s.map (fun up => (up.1, { up.2 with chats := up.2.chats.filter (· ≠ chat) }))

/-- SubscriptionsStore._load, lines 13-20, at the raw document level: a
missing file keeps (and saves) the constructor document, a raised
read/parse error falls back to it, and a successfully parsed document is
stored with no shape validation at all. -/
def subsLoad : FileRead → Json
  | .noFile => .obj [("users", .obj [])]
  | .unreadable => .obj [("users", .obj [])]
  | .parsed j => j

/-! ## Catalog store (src/app/subscriptions.py, class CatalogStore) -/

/-- One element of the groups list, on well-shaped states. -/
structure CatalogEntry where
  id : Int
  hidden : Bool
deriving DecidableEq

abbrev Groups := List CatalogEntry

/-- CatalogStore._merge_initial, lines 103-108: the existing id set is
computed once, then every distinct initial id not already present is
appended with hidden false. Python iterates set(initial_chat_ids) in an
unspecified order; one fixed enumeration of the distinct ids (List.dedup)
is used here, and every claim proved about the merge is insensitive to
that order. -/
def merge_initial (gs : Groups) (initial : List Int) : Groups :=
  gs ++ ((initial.dedup.filter (fun c => !(gs.any (fun g => g.id == c)))).map
          (fun c => ⟨c, false⟩))

/-- CatalogStore constructor, lines 80-89, on well-shaped states: with no
backing file the groups list is seeded as sorted(set(initial_chat_ids))
with hidden false; otherwise the loaded list is merged with the initial
ids. -/
def catalogInitTyped : Option Groups → List Int → Groups
  | none, initial => (pySortedSet initial).map (fun c => ⟨c, false⟩)
  | some gs, initial => merge_initial gs initial

/-- Modelled from the spec: CatalogStore.remove_group is called from
main.py admin_del_chat but is missing from the repository source.
Spec 4.2: deletes the entry entirely (idempotent if absent). -/
def remove_group (gs : Groups) (chat : Int) : Groups :=
  gs.filter (fun g => g.id ≠ chat)

/-- main.py admin_del_chat, lines 381-390: remove the catalog entry, then
cascade into every subscription set. -/
def admin_del_chat (gs : Groups) (subs : Users) (chat : Int) : Groups × Users :=
  (remove_group gs chat, remove_group_from_all subs chat)

/-! ## Catalog store, raw load path (for the fail-open analysis)

CatalogStore._load stores whatever json.loads produced, without shape
validation, and _merge_initial then operates on it dynamically; dynamic
attribute/type errors there are NOT caught and propagate out of the
constructor. -/

/-- The JSON document for one seeded group entry. -/
def mkGroupJson (c : Int) : Json :=
  .obj [("id", .num c), ("hidden", .bool false)]

/-- g.get of one element of the groups list inside the _merge_initial set
comprehension (line 104): raises AttributeError unless the element is a
dict; a dict without an id key contributes None. -/
def rawGroupIdOf : Json → Except String Json
  | .obj kvs => .ok ((dictLookup kvs "id").getD .null)
  | _ => .error "AttributeError: object has no attribute get"

/-- CatalogStore._merge_initial, lines 103-108, over the raw loaded
document: data.get requires a dict, the groups value must be a list of
dicts to survive the set comprehension, and fresh entries are appended for
the distinct initial ids whose int value is not among the raw existing
ids. -/
def merge_initial_dyn (data : Json) (initial : List Int) : Except String Json :=
  match data with
  | .obj kvs =>
      match (dictLookup kvs "groups").getD (.arr []) with
      | .arr gs => do
          let existing ← gs.mapM rawGroupIdOf
          -- set(initial_chat_ids) is modelled as List.dedup, as in
          -- merge_initial; the order is irrelevant to every claim proved.
          let fresh := (initial.dedup.filter
              (fun c => !(existing.any (pyIntEqJson c)))).map mkGroupJson
          if fresh.isEmpty then .ok data
          else .ok (.obj (dictSet kvs "groups" (.arr (gs ++ fresh))))
      | _ => .error "TypeError: groups value is not a list"
  | _ => .error "AttributeError: object has no attribute get"

/-- CatalogStore constructor, lines 80-89, over the raw load outcome: with
no backing file the seeded document is written; otherwise the _load result
(falling back to the empty document only when reading or parsing raised)
is passed to _merge_initial, whose dynamic failures escape. -/
def catalogInitDyn (file : FileRead) (initial : List Int) : Except String Json :=
  match file with
  | .noFile => .ok (.obj [("groups", .arr ((pySortedSet initial).map mkGroupJson))])
  | .unreadable => merge_initial_dyn (.obj [("groups", .arr [])]) initial
  | .parsed j => merge_initial_dyn j initial

/-! ## Routing fan-out engine (src/main.py) -/

/-- A pymax message attachment variant, per the isinstance chain in
send_attachments (photo carries a base url, video and file carry lookup
ids); other covers attachment kinds the chain ignores. -/
inductive Attach where
  | photo (baseUrl : String)
  | video (videoId : Int)
  | file (fileId : Int) (nm : Option String)
  | other
deriving DecidableEq

/-- An incoming source-platform message, with the fields handle_message
reads. The platform-supplied id is kept dynamic and parsed with int(). -/
structure Msg where
  id : Json
  chat_id : Option Int
  sender : Option Int
  text : Option String
  attaches : List Attach

/-- One delivery attempt observed at the destination-sender boundary: the
TelegramSender method invoked and its destination chat (sender-internal
HTTP failures are caught inside TelegramSender._post and change nothing
about the call sequence, so the trace records the calls). -/
inductive Ev where
  | text (dest : Int) (content : String)
  | photo (dest : Int)
  | video (dest : Int)
  | document (dest : Int)
deriving DecidableEq

/-- The external collaborators, scoped out by the spec: the text formatter
(format_message_text), the source client user lookup (None models lookup
failure, a raised exception, or an empty names list), byte fetching
(false models a raised download error, caught per attachment), and the
video/file url resolution (none models a null response or a raised error,
both of which skip the send). -/
structure Env where
  render : Msg → String → Option String → String
  authorName : Int → Option String
  fetchOk : String → Bool
  videoUrl : Int → Option String
  fileUrl : Int → Option String

/-- main.py resolve_author, lines 29-38: a falsy sender id (None or 0)
short-circuits; failures inside the lookup are caught and give None. -/
def resolve_author (env : Env) (sender : Option Int) : Option String :=
  match sender with
  | none => none
  | some s => if s = 0 then none else env.authorName s

/-- One iteration of the attachment loop in send_attachments, lines 51-68,
for one destination: the sender call it performs, if any; per-item
failures are caught and skip only that item. -/
def attachEvent (env : Env) (dest : Int) : Attach → Option Ev
  | .photo baseUrl => if env.fetchOk baseUrl then some (.photo dest) else none
  | .video vid =>
      match env.videoUrl vid with
      | some url => if env.fetchOk url then some (.video dest) else none
      | none => none
  | .file fid _ =>
      match env.fileUrl fid with
      | some url => if env.fetchOk url then some (.document dest) else none
      | none => none
  | .other => none

/-- main.py send_attachments, lines 41-68: the attachments are visited in
source order and each produces at most one sender call. -/
def send_attachments (env : Env) (m : Msg) (dest : Int) : List Ev :=
  m.attaches.filterMap (attachEvent env dest)

/-- The first line of handle_message, line 82: Python or between the
override and the native chat id, so a falsy override (None or 0) falls
through to the message chat id. -/
def pyOrChat : Option Int → Option Int → Option Int
  | some n, b => if n = 0 then b else some n
  | none, b => b

/-- handle_message lines 99-100 and 104: the destination set is the union
of the static route destinations and the subscriber user ids, delivered
in ascending order (sorted over the set). -/
def destinations (routes : List (Int × List Int)) (subs : Users) (chat : Int) :
    List Int :=
  pySortedSet ((dictLookup routes chat).getD [] ++ get_subscribers_for_chat subs chat)

/-- main.py handle_message, lines 71-109: resolve the source chat, parse
the id, dedup against the watermark, compute the destination union, then
per destination send the rendered text and relay the attachments, and
finally commit the watermark. Returns the sender-call trace and the
updated watermark store. -/
def handle_message (env : Env) (state : StateMap) (routes : List (Int × List Int))
    (subs : Users) (chatTitles : List (Int × String)) (m : Msg)
    (overrideChat : Option Int) : List Ev × StateMap :=
  match pyOrChat overrideChat m.chat_id with
  | none => ([], state)
  | some chat =>
      match pythonInt m.id with
      | none => ([], state)
      | some msgId =>
          if msgId ≤ get_last state chat then ([], state)
          else
            let author := resolve_author env m.sender
            let title := (dictLookup chatTitles chat).getD (toString chat)
            let text := env.render m title author
            let dests := destinations routes subs chat
            if dests = [] then ([], state)
            else
              (dests.flatMap (fun d => Ev.text d text :: send_attachments env m d),
               set_last state chat msgId)

/-- One statically configured route, src/app/config.py lines 9-12. -/
structure Route where
  max_chat_id : Int
  tg_chat_id : Option Int

/-- main.py run, line 125: routes_map is created as an empty
defaultdict(list) and is never written afterwards; settings.routes is not
inserted into it anywhere in the file. -/
def runRoutesMap (_routes : List Route) : List (Int × List Int) := []

/-- main.py run, line 126: initial_chat_ids is created empty and never
extended, so the catalog is never seeded from the static routes either. -/
def runInitialChatIds (_routes : List Route) : List Int := []

/-! ## Operation sequences over the subscription store -/

/-- A mutating call on the subscription store, as issued by the bot
handlers in main.py. -/
inductive SubOp where
  | ensure (u : Int) (username nm : Option String)
  | sub (u c : Int)
  | unsub (u c : Int)

def applySubOp (s : Users) : SubOp → Users
  | .ensure u un nm => ensure_user s u un nm
  | .sub u c => subscribe s u c
  | .unsub u c => unsubscribe s u c

/-- The store state after a call sequence, starting from the empty store
the constructor yields over a fresh file. -/
def runSubOps (ops : List SubOp) : Users :=
  ops.foldl applySubOp []

/-! ## Concrete scenario inputs -/

/-- An oracle with all external effects failing or absent; the engine
facts proved at it do not depend on the oracle. -/
def env0 : Env :=
  { render := fun _ _ _ => ""
    authorName := fun _ => none
    fetchOk := fun _ => false
    videoUrl := fun _ => none
    fileUrl := fun _ => none }

/-- An oracle whose fetches and lookups all succeed. -/
def envOk : Env :=
  { render := fun _ _ _ => "rendered"
    authorName := fun _ => some "author"
    fetchOk := fun _ => true
    videoUrl := fun v => some (toString v)
    fileUrl := fun f => some (toString f) }

/-- The incoming message of the static-route scenario. -/
def msgHi : Msg :=
  { id := .num 5, chat_id := some 100, sender := none, text := some "hi"
    attaches := [] }

/-- The scenario message with a platform id that int() cannot parse
(int of None raises TypeError). -/
def msgBad : Msg := { msgHi with id := .null }

/-- The scenario message carrying one attachment of each handled kind and
one of an ignored kind. -/
def msgAtt : Msg :=
  { id := .num 5, chat_id := some 100, sender := some 42, text := some "hi"
    attaches := [.photo "u", .video 3, .file 7 none, .other] }

/-- A routes map holding the single static route 100 to 200, as
handle_message would receive it were run to populate it. -/
def routesW : List (Int × List Int) := [(100, [200])]

/-- A watermark store in which chat 100 already sits at id 7. -/
def stateW5 : StateMap := [("100", 7)]

/-- Two subscribers of chat 100 (user 2 also subscribed to chat 7). -/
def subsW : Users :=
  [(1, ⟨[100], none, none⟩),
   (2, ⟨[7, 100], some (some "u"), some (some "n")⟩)]

/-- The destination of a sendMessage call in a trace, used to project the
text-delivery attempts out of a fan-out trace. -/
def textDest : Ev → Option Int
  | .text d _ => some d
  | _ => none

/-- The sender call one attachment produces when its metadata resolution
and byte download succeed: the matching media-kind method, and nothing for
the kinds the isinstance chain in send_attachments ignores. -/
def fullEvent (dest : Int) : Attach → Option Ev
  | .photo _ => some (.photo dest)
  | .video _ => some (.video dest)
  | .file _ _ => some (.document dest)
  | .other => none

/-- Every stored chat list is strictly sorted, that is sorted with no
duplicates. -/
def ChatsSorted (s : Users) : Prop :=
  ∀ u p, (u, p) ∈ s → p.chats.Sorted (· < ·)

/-- An oracle in which every attachment download and every video/file url
resolution succeeds. -/
def Env.allOk (env : Env) : Prop :=
  (∀ u, env.fetchOk u = true) ∧ (∀ v, (env.videoUrl v).isSome) ∧
    (∀ f, (env.fileUrl f).isSome)

/-! ## Dictionary lemmas -/

theorem dictLookup_dictSet_self {K V : Type} [DecidableEq K]
    (m : List (K × V)) (k : K) (v : V) :
    dictLookup (dictSet m k v) k = some v := by
  induction m with
  | nil => simp [dictSet, dictLookup]
  | cons kv rest ih =>
      by_cases h : kv.1 = k
      · simp [dictSet, h, dictLookup]
      · simpa [dictSet, h, dictLookup] using ih

theorem dictLookup_dictSet_ne {K V : Type} [DecidableEq K]
    (m : List (K × V)) {k k' : K} (v : V) (h : k' ≠ k) :
    dictLookup (dictSet m k v) k' = dictLookup m k' := by
  induction m with
  | nil => simp [dictSet, dictLookup, Ne.symm h]
  | cons kv rest ih =>
      by_cases hk : kv.1 = k
      · subst hk
        simp [dictSet, dictLookup, Ne.symm h]
      · simp only [dictSet, if_neg hk, dictLookup]
        by_cases hk' : kv.1 = k'
        · simp [hk']
        · simp [hk', ih]

theorem mem_dictSet {K V : Type} [DecidableEq K]
    {m : List (K × V)} {k : K} {v : V} {p : K × V} (h : p ∈ dictSet m k v) :
    p ∈ m ∨ p = (k, v) := by
  induction m with
  | nil => simpa [dictSet] using h
  | cons kv rest ih =>
      by_cases hk : kv.1 = k
      · rcases List.mem_cons.mp (by simpa [dictSet, hk] using h) with h' | h'
        · exact Or.inr h'
        · exact Or.inl (List.mem_cons_of_mem _ h')
      · rcases List.mem_cons.mp (by simpa [dictSet, hk] using h) with h' | h'
        · exact Or.inl (h' ▸ List.mem_cons_self _ _)
        · rcases ih h' with h'' | h''
          · exact Or.inl (List.mem_cons_of_mem _ h'')
          · exact Or.inr h''

theorem dictLookup_mem {K V : Type} [DecidableEq K]
    {m : List (K × V)} {k : K} {v : V} (h : dictLookup m k = some v) :
    (k, v) ∈ m := by
  induction m with
  | nil => simp [dictLookup] at h
  | cons kv rest ih =>
      by_cases hk : kv.1 = k
      · have hv : kv.2 = v := by simpa [dictLookup, hk] using h
        have hkv : kv = (k, v) := Prod.ext hk hv
        exact hkv ▸ List.mem_cons_self _ _
      · exact List.mem_cons_of_mem _ (ih (by simpa [dictLookup, hk] using h))

theorem get_last_set_last (s : StateMap) (c i : Int) :
    get_last (set_last s c i) c = i := by
  simp [get_last, set_last, dictLookup_dictSet_self]

/-! ## Sorted-set lemmas -/

theorem nodup_pySortedSet (l : List Int) : (pySortedSet l).Nodup :=
  (List.perm_insertionSort (· ≤ ·) l.dedup).nodup_iff.mpr (List.nodup_dedup l)

theorem sorted_le_pySortedSet (l : List Int) : (pySortedSet l).Sorted (· ≤ ·) :=
  List.sorted_insertionSort (· ≤ ·) l.dedup

theorem sorted_lt_of_le_nodup {l : List Int}
    (hs : l.Sorted (· ≤ ·)) (hn : l.Nodup) : l.Sorted (· < ·) :=
  (hs.and hn).imp (fun h => lt_of_le_of_ne h.1 h.2)

theorem sorted_lt_pySortedSet (l : List Int) : (pySortedSet l).Sorted (· < ·) :=
  sorted_lt_of_le_nodup (sorted_le_pySortedSet l) (nodup_pySortedSet l)

theorem mem_pySortedSet {x : Int} {l : List Int} :
    x ∈ pySortedSet l ↔ x ∈ l := by
  unfold pySortedSet
  rw [(List.perm_insertionSort (· ≤ ·) l.dedup).mem_iff, List.mem_dedup]

/-! ## handle_message branch lemmas -/

section HandleShape

variable (env : Env) (state : StateMap) (routes : List (Int × List Int))
    (subs : Users) (titles : List (Int × String)) (m : Msg) (ov : Option Int)

theorem handle_message_no_chat (h : pyOrChat ov m.chat_id = none) :
    handle_message env state routes subs titles m ov = ([], state) := by
  unfold handle_message
  rw [h]

theorem handle_message_bad_id {chat : Int}
    (h1 : pyOrChat ov m.chat_id = some chat) (h2 : pythonInt m.id = none) :
    handle_message env state routes subs titles m ov = ([], state) := by
  unfold handle_message
  rw [h1, h2]

theorem handle_message_stale {chat msgId : Int}
    (h1 : pyOrChat ov m.chat_id = some chat) (h2 : pythonInt m.id = some msgId)
    (h3 : msgId ≤ get_last state chat) :
    handle_message env state routes subs titles m ov = ([], state) := by
  simp only [handle_message, h1, h2, if_pos h3]

theorem handle_message_no_dest {chat msgId : Int}
    (h1 : pyOrChat ov m.chat_id = some chat) (h2 : pythonInt m.id = some msgId)
    (h3 : ¬ msgId ≤ get_last state chat)
    (h4 : destinations routes subs chat = []) :
    handle_message env state routes subs titles m ov = ([], state) := by
  simp only [handle_message, h1, h2, if_neg h3, h4]
  simp

theorem handle_message_forward {chat msgId : Int}
    (h1 : pyOrChat ov m.chat_id = some chat) (h2 : pythonInt m.id = some msgId)
    (h3 : ¬ msgId ≤ get_last state chat)
    (h4 : destinations routes subs chat ≠ []) :
    handle_message env state routes subs titles m ov =
      ((destinations routes subs chat).flatMap (fun d =>
          Ev.text d (env.render m ((dictLookup titles chat).getD (toString chat))
            (resolve_author env m.sender)) :: send_attachments env m d),
       set_last state chat msgId) := by
  simp only [handle_message, h1, h2, if_neg h3]
  rw [if_neg h4]

end HandleShape

/-! ## Trace projection lemmas -/

theorem filterMap_textDest_send_attachments (env : Env) (m : Msg) (d : Int) :
    (send_attachments env m d).filterMap textDest = [] := by
  unfold send_attachments
  induction m.attaches with
  | nil => rfl
  | cons a t ih =>
      rw [List.filterMap_cons]
      cases a with
      | photo u =>
          by_cases h : env.fetchOk u <;> simp [attachEvent, h, textDest, ih]
      | video v =>
          cases hv : env.videoUrl v with
          | none => simp [attachEvent, hv, ih]
          | some url =>
              by_cases h : env.fetchOk url <;>
                simp [attachEvent, hv, h, textDest, ih]
      | file f n =>
          cases hf : env.fileUrl f with
          | none => simp [attachEvent, hf, ih]
          | some url =>
              by_cases h : env.fetchOk url <;>
                simp [attachEvent, hf, h, textDest, ih]
      | other => simp [attachEvent, ih]

theorem filterMap_textDest_trace (env : Env) (m : Msg) (txt : String)
    (dests : List Int) :
    (dests.flatMap (fun d => Ev.text d txt :: send_attachments env m d)).filterMap
        textDest = dests := by
  induction dests with
  | nil => rfl
  | cons d t ih =>
      rw [List.flatMap_cons, List.filterMap_append, List.filterMap_cons]
      simp [textDest, filterMap_textDest_send_attachments, ih]

theorem send_attachments_allOk {env : Env} (h : Env.allOk env) (m : Msg)
    (d : Int) :
    send_attachments env m d = m.attaches.filterMap (fullEvent d) := by
  unfold send_attachments
  induction m.attaches with
  | nil => rfl
  | cons a t ih =>
      rw [List.filterMap_cons, List.filterMap_cons]
      cases a with
      | photo u => simp [attachEvent, fullEvent, h.1, ih]
      | video v =>
          cases hv : env.videoUrl v with
          | none => exact absurd (h.2.1 v) (by simp [hv])
          | some url => simp [attachEvent, fullEvent, hv, h.1, ih]
      | file f n =>
          cases hf : env.fileUrl f with
          | none => exact absurd (h.2.2 f) (by simp [hf])
          | some url => simp [attachEvent, fullEvent, hf, h.1, ih]
      | other => simp [attachEvent, fullEvent, ih]

/-! ## Subscription store lemmas -/

theorem chatsSorted_dictSet {s : Users} {k : Int} {q : Profile}
    (hs : ChatsSorted s) (hq : q.chats.Sorted (· < ·)) :
    ChatsSorted (dictSet s k q) := by
  intro u p hp
  rcases mem_dictSet hp with h | h
  · exact hs u p h
  · have : p = q := congrArg Prod.snd h
    exact this ▸ hq

theorem chatsSorted_applySubOp {s : Users} (hs : ChatsSorted s) (op : SubOp) :
    ChatsSorted (applySubOp s op) := by
  cases op with
  | ensure u un nm =>
      simp only [applySubOp]
      unfold ensure_user
      cases hl : dictLookup s u with
      | none => exact chatsSorted_dictSet hs List.sorted_nil
      | some p => exact chatsSorted_dictSet hs (hs u p (dictLookup_mem hl))
  | sub u c =>
      simp only [applySubOp]
      unfold subscribe
      exact chatsSorted_dictSet hs (sorted_lt_pySortedSet _)
  | unsub u c =>
      simp only [applySubOp]
      unfold unsubscribe
      cases hl : dictLookup s u with
      | none => exact hs
      | some p =>
          by_cases hc : c ∈ p.chats
          · simp only [if_pos hc]
            exact chatsSorted_dictSet hs (sorted_lt_pySortedSet _)
          · simp only [if_neg hc]
            exact hs

theorem chatsSorted_foldl :
    ∀ (ops : List SubOp) (s : Users), ChatsSorted s →
      ChatsSorted (ops.foldl applySubOp s)
  | [], _, hs => hs
  | op :: ops, _, hs => chatsSorted_foldl ops _ (chatsSorted_applySubOp hs op)

theorem chatsSorted_runSubOps (ops : List SubOp) : ChatsSorted (runSubOps ops) :=
  chatsSorted_foldl ops [] (fun _ _ hp => absurd hp (List.not_mem_nil _))

theorem get_user_chats_remove_group_from_all (s : Users) (u chat : Int) :
    get_user_chats (remove_group_from_all s chat) u
      = (get_user_chats s u).filter (· ≠ chat) := by
  induction s with
  | nil => rfl
  | cons kv rest ih =>
      by_cases h : kv.1 = u
      · simp [remove_group_from_all, get_user_chats, dictLookup, h]
      · simpa [remove_group_from_all, get_user_chats, dictLookup, h] using ih

theorem not_mem_filter_ne (l : List Int) (c : Int) : c ∉ l.filter (· ≠ c) := by
  intro h
  simpa using (List.mem_filter.mp h).2

/-! ## Catalog merge lemmas -/

theorem merge_initial_id_mem (gs : Groups) (l : List Int) (x : Int) :
    (∃ g ∈ merge_initial gs l, g.id = x) ↔ (∃ g ∈ gs, g.id = x) ∨ x ∈ l := by
  constructor
  · rintro ⟨g, hg, rfl⟩
    rcases List.mem_append.mp hg with h | h
    · exact Or.inl ⟨g, h, rfl⟩
    · rcases List.mem_map.mp h with ⟨c, hc, rfl⟩
      exact Or.inr (List.mem_dedup.mp (List.mem_filter.mp hc).1)
  · rintro (⟨g, hg, rfl⟩ | hx)
    · exact ⟨g, List.mem_append.mpr (Or.inl hg), rfl⟩
    · by_cases hany : gs.any (fun g => g.id == x)
      · rcases List.any_eq_true.mp hany with ⟨g, hg, hid⟩
        exact ⟨g, List.mem_append.mpr (Or.inl hg), eq_of_beq hid⟩
      · refine ⟨⟨x, false⟩, List.mem_append.mpr (Or.inr ?_), rfl⟩
        refine List.mem_map.mpr ⟨x, List.mem_filter.mpr ⟨List.mem_dedup.mpr hx, ?_⟩, rfl⟩
        simp only [Bool.not_eq_true'] at hany ⊢
        simpa using hany

theorem merge_initial_mem_of_mem (gs : Groups) (l : List Int) {g : CatalogEntry}
    (h : g ∈ gs) : g ∈ merge_initial gs l :=
  List.mem_append_left _ h

theorem merge_initial_new_not_hidden {gs : Groups} {l : List Int}
    {g : CatalogEntry} (h : g ∈ merge_initial gs l) (hn : g ∉ gs) :
    g.hidden = false := by
  rcases List.mem_append.mp h with h' | h'
  · exact absurd h' hn
  · rcases List.mem_map.mp h' with ⟨c, _, rfl⟩
    rfl

theorem merge_initial_idem (gs : Groups) (l : List Int) :
    merge_initial (merge_initial gs l) l = merge_initial gs l := by
  have hfil : l.dedup.filter
      (fun c => !((merge_initial gs l).any (fun g => g.id == c))) = [] := by
    apply List.filter_eq_nil_iff.mpr
    intro c hc
    have hx : ∃ g ∈ merge_initial gs l, g.id = c :=
      (merge_initial_id_mem gs l c).mpr (Or.inr (List.mem_dedup.mp hc))
    rcases hx with ⟨g, hg, hgid⟩
    have hany : (merge_initial gs l).any (fun g => g.id == c) = true :=
      List.any_eq_true.mpr ⟨g, hg, by simp [hgid]⟩
    simp [hany]
  show merge_initial gs l ++ _ = merge_initial gs l
  rw [hfil]
  simp

/-! ## Raw catalog load lemma -/

theorem merge_initial_dyn_empty (initial : List Int) :
    merge_initial_dyn (.obj [("groups", .arr [])]) initial
      = .ok (.obj [("groups", .arr (initial.dedup.map mkGroupJson))]) := by
  rcases h : initial.dedup with _ | ⟨c, cs⟩ <;>
    simp [merge_initial_dyn, dictLookup, dictSet, h, List.mapM.loop, pure,
      Except.pure, Except.bind, bind]

/-! ## Claims -/

/-- C1 (code bug): the claim expects the static route 100 to 200 to make
the scenario message {id 5, chat 100, text hi} reach destination 200 and
the watermark of chat 100 become 5. But main.run line 125 creates
routes_map as an empty defaultdict and never inserts settings.routes into
it, so with empty stores the engine computes an empty destination union,
discards the message, performs no sender call and leaves the watermark
store empty. -/
theorem C1_static_route_scenario_discarded :
    handle_message env0 [] (runRoutesMap [⟨100, some 200⟩]) [] [] msgHi none
      = ([], []) := rfl

/-- C2: re-delivering a message against the store state its first delivery
produced yields no sender calls and leaves the store exactly as after the
first delivery; and any message whose parsed id is at most the stored
watermark of its resolved chat is discarded with no sends and no state
change. -/
theorem C2_redelivery_noop (env : Env) (state : StateMap)
    (routes : List (Int × List Int)) (subs : Users)
    (titles : List (Int × String)) (m : Msg) (ov : Option Int) :
    (handle_message env (handle_message env state routes subs titles m ov).2
        routes subs titles m ov
      = ([], (handle_message env state routes subs titles m ov).2))
    ∧ (∀ chat msgId, pyOrChat ov m.chat_id = some chat →
        pythonInt m.id = some msgId → msgId ≤ get_last state chat →
        handle_message env state routes subs titles m ov = ([], state)) := by
  constructor
  · cases h1 : pyOrChat ov m.chat_id with
    | none =>
        rw [handle_message_no_chat env state routes subs titles m ov h1]
        exact handle_message_no_chat env state routes subs titles m ov h1
    | some chat =>
        cases h2 : pythonInt m.id with
        | none =>
            rw [handle_message_bad_id env state routes subs titles m ov h1 h2]
            exact handle_message_bad_id env state routes subs titles m ov h1 h2
        | some msgId =>
            by_cases h3 : msgId ≤ get_last state chat
            · rw [handle_message_stale env state routes subs titles m ov h1 h2 h3]
              exact handle_message_stale env state routes subs titles m ov h1 h2 h3
            · by_cases h4 : destinations routes subs chat = []
              · rw [handle_message_no_dest env state routes subs titles m ov h1 h2 h3 h4]
                exact handle_message_no_dest env state routes subs titles m ov h1 h2 h3 h4
              · rw [handle_message_forward env state routes subs titles m ov h1 h2 h3 h4]
                exact handle_message_stale env _ routes subs titles m ov h1 h2
                  (le_of_eq (get_last_set_last state chat msgId).symm)
  · intro chat msgId h1 h2 h3
    exact handle_message_stale env state routes subs titles m ov h1 h2 h3

/-- Witness for C2 at the concrete scenario: replaying the scenario
message after its first delivery is a no-op, and the scenario message is
discarded outright once the watermark already sits at 7. -/
theorem C2_redelivery_noop_witness :
    handle_message env0 (handle_message env0 [] routesW [] [] msgHi none).2
        routesW [] [] msgHi none
      = ([], (handle_message env0 [] routesW [] [] msgHi none).2)
    ∧ handle_message env0 stateW5 routesW [] [] msgHi none = ([], stateW5) :=
  ⟨(C2_redelivery_noop env0 [] routesW [] [] msgHi none).1,
   (C2_redelivery_noop env0 stateW5 routesW [] [] msgHi none).2 100 5
     (by decide) (by decide) (by decide)⟩

/-- C3 (the removal operations are modelled from the spec, their
definitions being absent from the repository): admin delete removes the
catalog entry for the chat, idempotently when absent, and strips the chat
from every subscription set; concretely, with user 1 subscribed to 5 and
6, removing entry 5 leaves the catalog without 5 and get_user_chats 1
equal to [6]. -/
theorem C3_admin_delete_cascade :
    (∀ (gs : Groups) (chat : Int), (∀ g ∈ gs, g.id ≠ chat) →
        remove_group gs chat = gs)
    ∧ (∀ (gs : Groups) (chat : Int), ∀ g ∈ remove_group gs chat, g.id ≠ chat)
    ∧ (∀ (s : Users) (u chat : Int),
        chat ∉ get_user_chats (remove_group_from_all s chat) u)
    ∧ (admin_del_chat (catalogInitTyped none [5, 6])
          (subscribe (subscribe [] 1 5) 1 6) 5).1 = [⟨6, false⟩]
    ∧ get_user_chats (admin_del_chat (catalogInitTyped none [5, 6])
          (subscribe (subscribe [] 1 5) 1 6) 5).2 1 = [6] := by
  refine ⟨?_, ?_, ?_, by decide, by decide⟩
  · intro gs chat h
    exact List.filter_eq_self.mpr (fun g hg => by simpa using h g hg)
  · intro gs chat g hg
    simpa using (List.mem_filter.mp hg).2
  · intro s u chat
    rw [get_user_chats_remove_group_from_all]
    exact not_mem_filter_ne _ _

/-- Witness for C3 at concrete inputs: removing 5 from a catalog without 5
changes nothing, the cascade removed chat 5 from user 1, and user 1 keeps
exactly [6]. -/
theorem C3_admin_delete_cascade_witness :
    remove_group ([⟨6, false⟩] : Groups) 5 = [⟨6, false⟩]
    ∧ (5 : Int) ∉ get_user_chats
        (remove_group_from_all (subscribe (subscribe [] 1 5) 1 6) 5) 1
    ∧ get_user_chats (admin_del_chat (catalogInitTyped none [5, 6])
        (subscribe (subscribe [] 1 5) 1 6) 5).2 1 = [6] :=
  ⟨C3_admin_delete_cascade.1 _ 5 (by decide),
   C3_admin_delete_cascade.2.2.1 _ 1 5,
   C3_admin_delete_cascade.2.2.2.2⟩

/-- C4: the committed watermark state does not depend on the delivery
oracle (send and attachment failures are caught inside the sender and the
attachment loop); on the forward path it becomes set_last of the parsed
id, and every discard branch (unresolvable chat, unparseable id, id at
most the watermark, empty destination union) returns the store
unchanged. -/
theorem C4_watermark_commit (env envB : Env) (state : StateMap)
    (routes : List (Int × List Int)) (subs : Users)
    (titles : List (Int × String)) (m : Msg) (ov : Option Int) :
    ((handle_message env state routes subs titles m ov).2
        = (handle_message envB state routes subs titles m ov).2)
    ∧ (∀ chat msgId, pyOrChat ov m.chat_id = some chat →
        pythonInt m.id = some msgId → ¬ msgId ≤ get_last state chat →
        destinations routes subs chat ≠ [] →
        (handle_message env state routes subs titles m ov).2
          = set_last state chat msgId)
    ∧ (pyOrChat ov m.chat_id = none →
        handle_message env state routes subs titles m ov = ([], state))
    ∧ (∀ chat, pyOrChat ov m.chat_id = some chat → pythonInt m.id = none →
        handle_message env state routes subs titles m ov = ([], state))
    ∧ (∀ chat msgId, pyOrChat ov m.chat_id = some chat →
        pythonInt m.id = some msgId → msgId ≤ get_last state chat →
        handle_message env state routes subs titles m ov = ([], state))
    ∧ (∀ chat msgId, pyOrChat ov m.chat_id = some chat →
        pythonInt m.id = some msgId → ¬ msgId ≤ get_last state chat →
        destinations routes subs chat = [] →
        handle_message env state routes subs titles m ov = ([], state)) := by
  refine ⟨?_, ?_, handle_message_no_chat env state routes subs titles m ov,
    fun chat h1 h2 => handle_message_bad_id env state routes subs titles m ov h1 h2,
    fun chat msgId h1 h2 h3 =>
      handle_message_stale env state routes subs titles m ov h1 h2 h3,
    fun chat msgId h1 h2 h3 h4 =>
      handle_message_no_dest env state routes subs titles m ov h1 h2 h3 h4⟩
  · cases h1 : pyOrChat ov m.chat_id with
    | none =>
        rw [handle_message_no_chat env state routes subs titles m ov h1,
          handle_message_no_chat envB state routes subs titles m ov h1]
    | some chat =>
        cases h2 : pythonInt m.id with
        | none =>
            rw [handle_message_bad_id env state routes subs titles m ov h1 h2,
              handle_message_bad_id envB state routes subs titles m ov h1 h2]
        | some msgId =>
            by_cases h3 : msgId ≤ get_last state chat
            · rw [handle_message_stale env state routes subs titles m ov h1 h2 h3,
                handle_message_stale envB state routes subs titles m ov h1 h2 h3]
            · by_cases h4 : destinations routes subs chat = []
              · rw [handle_message_no_dest env state routes subs titles m ov h1 h2 h3 h4,
                  handle_message_no_dest envB state routes subs titles m ov h1 h2 h3 h4]
              · rw [handle_message_forward env state routes subs titles m ov h1 h2 h3 h4,
                  handle_message_forward envB state routes subs titles m ov h1 h2 h3 h4]
  · intro chat msgId h1 h2 h3 h4
    rw [handle_message_forward env state routes subs titles m ov h1 h2 h3 h4]

/-- Witness for C4 at concrete inputs: the all-failing and all-succeeding
oracles commit the same store, the forward path advances the watermark of
chat 100 to 5, an unparseable id and a stale id and an empty destination
union each leave the store untouched. -/
theorem C4_watermark_commit_witness :
    (handle_message env0 [] routesW [] [] msgHi none).2
      = (handle_message envOk [] routesW [] [] msgHi none).2
    ∧ (handle_message env0 [] routesW [] [] msgHi none).2 = set_last [] 100 5
    ∧ handle_message env0 [] routesW [] [] msgBad none = ([], [])
    ∧ handle_message env0 stateW5 routesW [] [] msgHi none = ([], stateW5)
    ∧ handle_message env0 [] [] [] [] msgHi none = ([], []) :=
  ⟨(C4_watermark_commit env0 envOk [] routesW [] [] msgHi none).1,
   (C4_watermark_commit env0 envOk [] routesW [] [] msgHi none).2.1 100 5
     (by decide) (by decide) (by decide) (by decide),
   (C4_watermark_commit env0 envOk [] routesW [] [] msgBad none).2.2.2.1 100
     (by decide) (by decide),
   (C4_watermark_commit env0 envOk stateW5 routesW [] [] msgHi none).2.2.2.2.1
     100 5 (by decide) (by decide) (by decide),
   (C4_watermark_commit env0 envOk [] [] [] [] msgHi none).2.2.2.2.2 100 5
     (by decide) (by decide) (by decide) (by decide)⟩

/-- C5: on the forward path, the trace is, destination by destination in
strictly ascending destination order (hence each destination exactly
once), the rendered text first and then the attachment relays; projecting
the text sends out of the trace gives exactly the destination list; and
when every attachment resolution and download succeeds, each destination
receives every handled attachment through the matching media-kind sender
operation in source order. -/
theorem C5_fanout_order (env : Env) (state : StateMap)
    (routes : List (Int × List Int)) (subs : Users)
    (titles : List (Int × String)) (m : Msg) (ov : Option Int)
    (chat msgId : Int)
    (h1 : pyOrChat ov m.chat_id = some chat)
    (h2 : pythonInt m.id = some msgId)
    (h3 : ¬ msgId ≤ get_last state chat)
    (h4 : destinations routes subs chat ≠ []) :
    ((handle_message env state routes subs titles m ov).1
        = (destinations routes subs chat).flatMap (fun d =>
            Ev.text d (env.render m ((dictLookup titles chat).getD (toString chat))
              (resolve_author env m.sender)) :: send_attachments env m d))
    ∧ (destinations routes subs chat).Sorted (· < ·)
    ∧ ((handle_message env state routes subs titles m ov).1.filterMap textDest
        = destinations routes subs chat)
    ∧ (Env.allOk env → ∀ d, send_attachments env m d
        = m.attaches.filterMap (fullEvent d)) := by
  refine ⟨?_, sorted_lt_pySortedSet _, ?_,
    fun h d => send_attachments_allOk h m d⟩
  · rw [handle_message_forward env state routes subs titles m ov h1 h2 h3 h4]
  · rw [handle_message_forward env state routes subs titles m ov h1 h2 h3 h4]
    exact filterMap_textDest_trace env m _ _

/-- Witness for C5 at the concrete scenario with route destination 200 and
subscribers 1 and 2: the text projection of the trace is the ascending
destination list, and with the all-succeeding oracle destination 200
receives photo, video and document relays in source order. -/
theorem C5_fanout_order_witness :
    (handle_message envOk [] routesW subsW [] msgAtt none).1.filterMap textDest
      = destinations routesW subsW 100
    ∧ (destinations routesW subsW 100).Sorted (· < ·)
    ∧ send_attachments envOk msgAtt 200 = msgAtt.attaches.filterMap (fullEvent 200) := by
  obtain ⟨-, hsort, hproj, hall⟩ :=
    C5_fanout_order envOk [] routesW subsW [] msgAtt none 100 5
      (by decide) (by decide) (by decide) (by decide)
  exact ⟨hproj, hsort, hall ⟨fun u => rfl, fun v => rfl, fun f => rfl⟩ 200⟩

/-- C6: catalog construction merges the static ids as a union by id:
seeding from {10, 20} and constructing again over the saved state with
{20, 30} yields exactly the entries 10, 20, 30 with hidden false; in
general an id is in the merged catalog iff it was in the loaded state or
among the initial ids, loaded entries are kept untouched (so a previously
hidden entry stays hidden), newly seeded entries get hidden false, and
re-running the merge with the same ids changes nothing. -/
theorem C6_catalog_union :
    (catalogInitTyped (some (catalogInitTyped none [10, 20])) [20, 30]
        = [⟨10, false⟩, ⟨20, false⟩, ⟨30, false⟩])
    ∧ (∀ (gs : Groups) (l : List Int) (x : Int),
        (∃ g ∈ merge_initial gs l, g.id = x) ↔ (∃ g ∈ gs, g.id = x) ∨ x ∈ l)
    ∧ (∀ (gs : Groups) (l : List Int), ∀ g ∈ gs, g ∈ merge_initial gs l)
    ∧ (∀ (gs : Groups) (l : List Int) (g : CatalogEntry),
        g ∈ merge_initial gs l → g ∉ gs → g.hidden = false)
    ∧ (∀ (gs : Groups) (l : List Int),
        merge_initial (merge_initial gs l) l = merge_initial gs l) :=
  ⟨by decide, merge_initial_id_mem,
   fun gs l _ h => merge_initial_mem_of_mem gs l h,
   fun _ _ _ h hn => merge_initial_new_not_hidden h hn,
   merge_initial_idem⟩

/-- Witness for C6 at concrete inputs: 30 is an id of the merged catalog,
the repeated merge is the identity there, and the two-step construction
yields exactly the three visible entries. -/
theorem C6_catalog_union_witness :
    (∃ g ∈ merge_initial ([⟨10, false⟩, ⟨20, false⟩] : Groups) [20, 30], g.id = 30)
    ∧ merge_initial (merge_initial ([⟨10, false⟩, ⟨20, false⟩] : Groups) [20, 30])
        [20, 30]
      = merge_initial ([⟨10, false⟩, ⟨20, false⟩] : Groups) [20, 30]
    ∧ catalogInitTyped (some (catalogInitTyped none [10, 20])) [20, 30]
        = [⟨10, false⟩, ⟨20, false⟩, ⟨30, false⟩] :=
  ⟨(C6_catalog_union.2.1 _ _ 30).mpr (Or.inr (by decide)),
   C6_catalog_union.2.2.2.2 _ _, C6_catalog_union.1⟩

/-- C7: subscriptions have set semantics: subscribing user 1 to chat 5
twice stores exactly [5]; unsubscribing a pairing that is absent returns
the store unchanged; and in every store state reachable by the store
operations from the empty store, every user's chat list is strictly
sorted, that is duplicate-free and sorted. -/
theorem C7_subscription_sets :
    (get_user_chats (subscribe (subscribe [] 1 5) 1 5) 1 = [5])
    ∧ (∀ (s : Users) (u c : Int), c ∉ get_user_chats s u → unsubscribe s u c = s)
    ∧ (∀ (ops : List SubOp) (u : Int) (p : Profile),
        (u, p) ∈ runSubOps ops → p.chats.Sorted (· < ·)) := by
  refine ⟨by decide, ?_, fun ops u p h => chatsSorted_runSubOps ops u p h⟩
  · intro s u c hc
    unfold unsubscribe
    cases hl : dictLookup s u with
    | none => rfl
    | some p =>
        have hcp : c ∉ p.chats := by
          have hg : get_user_chats s u = p.chats := by
            simp [get_user_chats, hl]
          rw [hg] at hc
          exact hc
        simp only [if_neg hcp]

/-- Witness for C7 at concrete inputs: the double subscription stores [5],
unsubscribing the absent pairing (2, 9) from the empty store changes
nothing, and the chat list of the profile reached by one subscribe is
strictly sorted. -/
theorem C7_subscription_sets_witness :
    get_user_chats (subscribe (subscribe [] 1 5) 1 5) 1 = [5]
    ∧ unsubscribe [] 2 9 = []
    ∧ (Profile.mk [5] none none).chats.Sorted (· < ·) :=
  ⟨C7_subscription_sets.1,
   C7_subscription_sets.2.1 [] 2 9 (by decide),
   C7_subscription_sets.2.2 [SubOp.sub 1 5] 1 ⟨[5], none, none⟩ (by decide)⟩

/-- C8: the watermark store is permissive: an empty store answers 0 for
every chat, a chat whose key is absent answers 0, a set value is read
back exactly, and a second set overwrites unconditionally, a lower id
included. -/
theorem C8_watermark_permissive :
    (∀ c, get_last [] c = 0)
    ∧ (∀ (s : StateMap) (c : Int), dictLookup s (toString c) = none →
        get_last s c = 0)
    ∧ (∀ (s : StateMap) (c i : Int), get_last (set_last s c i) c = i)
    ∧ (∀ (s : StateMap) (c i j : Int),
        get_last (set_last (set_last s c i) c j) c = j) := by
  refine ⟨fun _ => rfl, ?_, fun s c i => get_last_set_last s c i,
    fun s c i j => get_last_set_last _ c j⟩
  · intro s c h
    simp [get_last, h]

/-- Witness for C8 at concrete inputs: chat 100 is unseen in the empty
store, and setting 7 then 3 leaves 3. -/
theorem C8_watermark_permissive_witness :
    get_last [] 100 = 0
    ∧ get_last (set_last (set_last [] 100 7) 100 3) 100 = 3 :=
  ⟨C8_watermark_permissive.2.1 [] 100 rfl,
   C8_watermark_permissive.2.2.2 [] 100 7 3⟩

/-- C9 counterexample: the byte content [] is valid JSON that cannot be
interpreted as the expected catalog document, yet CatalogStore
construction over it is not the empty store: _merge_initial raises
(AttributeError at self._data.get, outside any try) and construction
aborts startup. -/
theorem C9_wrong_shape_aborts :
    catalogInitDyn (.parsed (.arr [])) []
      = .error "AttributeError: object has no attribute get" := rfl

/-- C9 amended: a missing, unreadable or JSON-unparseable backing file
fails open for all three stores (empty watermark map, empty users
document, catalog construction succeeding with exactly the seeded initial
ids, hidden false); the watermark store alone also degrades a parsed but
wrong-shaped document to the empty state, its normalization running
inside the try. -/
theorem C9_fail_open :
    (stateLoad .noFile = [] ∧ stateLoad .unreadable = [])
    ∧ (∀ j, stateNormalize j = none → stateLoad (.parsed j) = [])
    ∧ (subsLoad .noFile = .obj [("users", .obj [])]
        ∧ subsLoad .unreadable = .obj [("users", .obj [])])
    ∧ (∀ ids, catalogInitDyn .unreadable ids
        = .ok (.obj [("groups", .arr (ids.dedup.map mkGroupJson))])) := by
  refine ⟨⟨rfl, rfl⟩, ?_, ⟨rfl, rfl⟩, merge_initial_dyn_empty⟩
  intro j h
  simp [stateLoad, h]

/-- Witness for C9 at concrete inputs: a parsed non-object document leaves
the watermark store empty, and catalog construction over an unreadable
file with initial ids 20 and 10 succeeds with exactly those two seeded
entries. -/
theorem C9_fail_open_witness :
    stateLoad (.parsed (.arr [])) = []
    ∧ catalogInitDyn .unreadable [20, 10]
        = .ok (.obj [("groups", .arr [mkGroupJson 20, mkGroupJson 10])]) :=
  ⟨C9_fail_open.2.1 (.arr []) rfl, C9_fail_open.2.2.2 [20, 10]⟩

/-- C10: subscribe touches only the subscribing user's chat list: every
other key reads back unchanged, an existing profile keeps its username
and name fields exactly, a profile created implicitly by subscribe
carries no username key and no name key at all, and list_users hands back
that stored profile as is. -/
theorem C10_subscribe_frame :
    (∀ (s : Users) (u c x : Int), x ≠ u →
        dictLookup (subscribe s u c) x = dictLookup s x)
    ∧ (∀ (s : Users) (u c : Int) (p : Profile), dictLookup s u = some p →
        dictLookup (subscribe s u c) u
          = some { p with chats := pySortedSet (c :: p.chats) })
    ∧ (∀ (s : Users) (u c : Int), dictLookup s u = none →
        dictLookup (subscribe s u c) u = some ⟨pySortedSet [c], none, none⟩)
    ∧ (list_users (subscribe [] 1 5) = [(1, ⟨[5], none, none⟩)]) := by
  refine ⟨?_, ?_, ?_, by decide⟩
  · intro s u c x hx
    unfold subscribe
    exact dictLookup_dictSet_ne s _ hx
  · intro s u c p hp
    have h1 : subscribe s u c
        = dictSet s u { p with chats := pySortedSet (c :: p.chats) } := by
      unfold subscribe
      rw [hp]
      rfl
    rw [h1]
    exact dictLookup_dictSet_self s u _
  · intro s u c hp
    have h1 : subscribe s u c
        = dictSet s u ⟨pySortedSet [c], none, none⟩ := by
      unfold subscribe
      rw [hp]
      rfl
    rw [h1]
    exact dictLookup_dictSet_self s u _

/-- Witness for C10 at concrete inputs: subscribing user 1 leaves user 2's
entry unchanged, and the implicitly created profile of user 1 stores the
single chat with both optional keys absent. -/
theorem C10_subscribe_frame_witness :
    dictLookup (subscribe [(2, Profile.mk [7] none none)] 1 5) 2
        = dictLookup [(2, Profile.mk [7] none none)] 2
    ∧ dictLookup (subscribe [] 1 5) 1
        = some (Profile.mk (pySortedSet [5]) none none) :=
  ⟨C10_subscribe_frame.1 _ 1 5 2 (by decide),
   C10_subscribe_frame.2.2.1 [] 1 5 rfl⟩

end Bridge
